import Mathlib

/-!
Verification of the LoanzZz lending engine core against its specification.

Shallow embedding of the TypeScript source:
  - server/src/services/loanEngine.ts      (LTV, create, repay, add collateral,
                                            interest accrual, margin calls)
  - server/src/services/liquidationEngine.ts (liquidation)
  - server/src/services/xecxStaking.ts     (staking pool add and remove)
  - server/src/routes/loans.ts             (route-level guards around the engine)
  - server/src/services/priceOracle.ts     (toUSD, getPrice shape)

Monetary values are modelled as rationals; database rows become records and the
per-request database effects become explicit state passing.  Timestamps are
rationals in milliseconds, matching Date.now in the source.
-/

/-- Asset types handled by the platform: the three balance columns of the
users table (balance_xec, balance_firma, balance_xecx). -/
inductive Asset
  | XEC
  | FIRMA
  | XECX
deriving DecidableEq

/-- Loan status column: active | repaid | liquidated | margin_call. -/
inductive LoanStatus
  | active
  | margin_call
  | repaid
  | liquidated
deriving DecidableEq

/-- The three per-user balance columns. -/
structure Balances where
  xec : ℚ
  firma : ℚ
  xecx : ℚ
deriving DecidableEq

/-- Read the balance column of one asset. -/
def Balances.get (b : Balances) : Asset → ℚ
  | Asset.XEC => b.xec
  | Asset.FIRMA => b.firma
  | Asset.XECX => b.xecx

/-- UPDATE users SET balance_a = balance_a + q for the column of asset a. -/
def Balances.add (b : Balances) (a : Asset) (q : ℚ) : Balances :=
  match a with
  | Asset.XEC => { b with xec := b.xec + q }
  | Asset.FIRMA => { b with firma := b.firma + q }
  | Asset.XECX => { b with xecx := b.xecx + q }

/-- A loans-table row (the columns the core operations read or write). -/
structure Loan where
  user_id : Nat
  status : LoanStatus
  collateral_type : Asset
  collateral_amount : ℚ
  collateral_value_usd : ℚ
  borrowed_type : Asset
  borrowed_amount : ℚ
  borrowed_value_usd : ℚ
  interest_rate : ℚ
  accrued_interest : ℚ
  initial_ltv : ℚ
  current_ltv : ℚ
  staking_yield_earned : ℚ
  last_interest_update : ℚ
  updated_at : ℚ
  closed_at : Option ℚ
deriving DecidableEq

/-- Transaction-log row types appended by the modelled operations. -/
inductive TxnType
  | borrow
  | repay
  | add_collateral
  | liquidation
deriving DecidableEq

/-- A transactions-table row (the columns the claims mention). -/
structure Txn where
  type : TxnType
  asset : Asset
  amount : ℚ
  value_usd : Option ℚ
deriving DecidableEq

/-- The singleton staking_pool row (xecxStaking.ts). -/
structure StakingPool where
  platform_base_xecx : ℚ
  user_contributed_xecx : ℚ
  total_xecx : ℚ
deriving DecidableEq

/-- A margin_calls-table row: the LTV at alert and whether the alert_type
was critical (ltv at or above 80) rather than warning. -/
structure MarginCall where
  ltv_at_alert : ℚ
  critical : Bool
deriving DecidableEq

/-- The ledger state one loan operation touches: the balance row of the owner, the
loan row, the staking pool singleton and the transaction log. -/
structure SysState where
  balances : Balances
  loan : Loan
  pool : StakingPool
  txs : List Txn
deriving DecidableEq

/-- Engine errors surfaced by the modelled operations. -/
inductive LoanErr
  | unauthorized
  | loanClosed
  | ltvExceeded
  | insufficientBalance
  | validationFailed
deriving DecidableEq

/-! Configuration defaults (loanEngine.ts lines 12-15, liquidationEngine.ts
line 17). -/

def INITIAL_LTV : ℚ := 65

def MARGIN_CALL_LTV : ℚ := 75

def LIQUIDATION_LTV : ℚ := 83

def HOURLY_INTEREST_RATE : ℚ := 1 / 10000

def LIQUIDATION_FEE : ℚ := 1 / 50

/-! Price oracle (priceOracle.ts).  getPrice returns 1.0 for FIRMA
unconditionally; for the other assets the fetched or cached price applies, which
we model as a price assignment passed in. -/

/-- getPrice: FIRMA is pegged to 1 USD; other assets read the supplied feed. -/
def getPrice (px : Asset → ℚ) : Asset → ℚ
  | Asset.FIRMA => 1
  | a => px a

/-- toUSD (priceOracle.ts): amount times price. -/
def toUSD (px : Asset → ℚ) (asset : Asset) (amount : ℚ) : ℚ :=
  amount * getPrice px asset

/-- calculateLTV (loanEngine.ts lines 49-61): borrowed value including accrued
interest over collateral value, in percent; 100 when the collateral value
is zero. -/
def calculateLTV (px : Asset → ℚ) (borrowedType : Asset) (borrowedAmount : ℚ)
    (accruedInterest : ℚ) (collateralType : Asset) (collateralAmount : ℚ) : ℚ :=
  let borrowedValue := toUSD px borrowedType (borrowedAmount + accruedInterest)
  let collateralValue := toUSD px collateralType collateralAmount
  if collateralValue = 0 then 100 else borrowedValue / collateralValue * 100

/-- getHoursElapsed (loanEngine.ts lines 405-409): millisecond difference
divided into hours. -/
def getHoursElapsed (nowMs thenMs : ℚ) : ℚ :=
  (nowMs - thenMs) / (1000 * 60 * 60)

/-! Staking pool mutations (xecxStaking.ts). -/

/-- addToStakingPool (xecxStaking.ts lines 56-69): unclamped addition to
user_contributed_xecx and total_xecx. -/
def addToStakingPool (pool : StakingPool) (xecAmount : ℚ) : StakingPool :=
  { pool with
      user_contributed_xecx := pool.user_contributed_xecx + xecAmount,
      total_xecx := pool.total_xecx + xecAmount }

/-- removeFromStakingPool (xecxStaking.ts lines 74-85): subtraction clamped so
user_contributed_xecx stays at or above 0 and total_xecx at or above
platform_base_xecx. -/
def removeFromStakingPool (pool : StakingPool) (xecAmount : ℚ) : StakingPool :=
  { pool with
      user_contributed_xecx := max 0 (pool.user_contributed_xecx - xecAmount),
      total_xecx := max pool.platform_base_xecx (pool.total_xecx - xecAmount) }

/-! Loan engine operations (loanEngine.ts). -/

/-- createLoan (loanEngine.ts lines 83-141): LTV check against INITIAL_LTV,
then in one transaction insert the loan row, debit the collateral balance,
credit the borrowed balance and append a borrow transaction.  The engine
performs no balance check. -/
def createLoanEngine (px : Asset → ℚ) (now : ℚ) (userId : Nat)
    (collateralType : Asset) (collateralAmount : ℚ)
    (borrowedType : Asset) (borrowedAmount : ℚ)
    (bal : Balances) (txs : List Txn) :
    Except LoanErr (Balances × Loan × List Txn) :=
  let collateralValueUSD := toUSD px collateralType collateralAmount
  let borrowedValueUSD := toUSD px borrowedType borrowedAmount
  let ltv := borrowedValueUSD / collateralValueUSD * 100
  if ltv > INITIAL_LTV then Except.error LoanErr.ltvExceeded
  else
    let loan : Loan :=
      { user_id := userId, status := LoanStatus.active,
        collateral_type := collateralType, collateral_amount := collateralAmount,
        collateral_value_usd := collateralValueUSD,
        borrowed_type := borrowedType, borrowed_amount := borrowedAmount,
        borrowed_value_usd := borrowedValueUSD,
        interest_rate := HOURLY_INTEREST_RATE, accrued_interest := 0,
        initial_ltv := ltv, current_ltv := ltv, staking_yield_earned := 0,
        last_interest_update := now, updated_at := now, closed_at := none }
    let bal1 := (bal.add collateralType (-collateralAmount)).add borrowedType borrowedAmount
    Except.ok (bal1, loan,
      txs ++ [{ type := TxnType.borrow, asset := borrowedType,
                amount := borrowedAmount, value_usd := some borrowedValueUSD }])

/-- The balance column the POST /loans route inspects (loans.ts lines 105-106):
balance_xec when the collateral is XEC, balance_firma for everything else. -/
def routeBalanceAsset (collateralType : Asset) : Asset :=
  if collateralType = Asset.XEC then Asset.XEC else Asset.FIRMA

/-- POST /loans (loans.ts lines 87-152): balance guard on the route-selected
column, then the engine createLoan, then addToStakingPool when the collateral
is XEC. -/
def createLoanRoute (px : Asset → ℚ) (now : ℚ) (userId : Nat)
    (collateralType : Asset) (collateralAmount : ℚ)
    (borrowedType : Asset) (borrowedAmount : ℚ)
    (bal : Balances) (pool : StakingPool) (txs : List Txn) :
    Except LoanErr (Balances × Loan × StakingPool × List Txn) :=
  if bal.get (routeBalanceAsset collateralType) < collateralAmount then
    Except.error LoanErr.insufficientBalance
  else
    match createLoanEngine px now userId collateralType collateralAmount
        borrowedType borrowedAmount bal txs with
    | Except.error e => Except.error e
    | Except.ok (bal1, loan, txs1) =>
        let pool1 := if collateralType = Asset.XEC then addToStakingPool pool collateralAmount
                     else pool
        Except.ok (bal1, loan, pool1, txs1)

/-- repayLoan (loanEngine.ts lines 265-343), as invoked by POST /loans/:id/repay
(loans.ts lines 259-282, which calls only the engine): ownership and
terminal-state guards, actual repay capped at the outstanding debt, debit from
the borrowed-asset balance, then either full closure with collateral returned or
an interest-first reduction of the debt; one repay transaction appended.  Nothing in
this path touches the staking pool. -/
def repayLoan (now : ℚ) (sys : SysState) (repayAmount : ℚ) (userId : Nat) :
    Except LoanErr (SysState × ℚ × Bool) :=
  let loan := sys.loan
  if loan.user_id ≠ userId then Except.error LoanErr.unauthorized
  else if loan.status = LoanStatus.liquidated ∨ loan.status = LoanStatus.repaid then
    Except.error LoanErr.loanClosed
  else
    let totalDebt := loan.borrowed_amount + loan.accrued_interest
    let actualRepay := min repayAmount totalDebt
    let remainingDebt := totalDebt - actualRepay
    let bal1 := sys.balances.add loan.borrowed_type (-actualRepay)
    let repayTx : Txn :=
      { type := TxnType.repay, asset := loan.borrowed_type,
        amount := actualRepay, value_usd := none }
    if remainingDebt ≤ 0 then
      let bal2 := bal1.add loan.collateral_type loan.collateral_amount
      let loan2 := { loan with
        status := LoanStatus.repaid, borrowed_amount := 0,
        accrued_interest := 0, current_ltv := 0,
        closed_at := some now, updated_at := now }
      Except.ok ({ sys with
        loan := loan2, balances := bal2,
        txs := sys.txs ++ [repayTx] }, remainingDebt, true)
    else
      let pr : ℚ × ℚ :=
        if loan.accrued_interest ≤ actualRepay then
          (loan.borrowed_amount - (actualRepay - loan.accrued_interest), 0)
        else
          (loan.borrowed_amount, loan.accrued_interest - actualRepay)
      let loan2 := { loan with
        borrowed_amount := pr.1, accrued_interest := pr.2,
        updated_at := now }
      Except.ok ({ sys with
        loan := loan2, balances := bal1,
        txs := sys.txs ++ [repayTx] }, remainingDebt, false)

/-- addCollateral (loanEngine.ts lines 348-402): ownership and terminal-state
guards, new collateral amount and recomputed LTV, unconditional debit from the
collateral-asset balance, status reset to active when the new LTV is below
MARGIN_CALL_LTV, one add_collateral transaction appended.  No check that the
amount is positive and no balance check. -/
def addCollateral (px : Asset → ℚ) (now : ℚ) (sys : SysState) (amount : ℚ)
    (userId : Nat) : Except LoanErr SysState :=
  let loan := sys.loan
  if loan.user_id ≠ userId then Except.error LoanErr.unauthorized
  else if loan.status = LoanStatus.liquidated ∨ loan.status = LoanStatus.repaid then
    Except.error LoanErr.loanClosed
  else
    let newCollateralAmount := loan.collateral_amount + amount
    let newCollateralValue := toUSD px loan.collateral_type newCollateralAmount
    let newLTV := calculateLTV px loan.borrowed_type loan.borrowed_amount
      loan.accrued_interest loan.collateral_type newCollateralAmount
    let bal1 := sys.balances.add loan.collateral_type (-amount)
    let newStatus := if newLTV < MARGIN_CALL_LTV then LoanStatus.active else loan.status
    let loan2 := { loan with
      collateral_amount := newCollateralAmount,
      collateral_value_usd := newCollateralValue,
      current_ltv := newLTV, status := newStatus, updated_at := now }
    Except.ok { sys with
      loan := loan2, balances := bal1,
      txs := sys.txs ++ [{ type := TxnType.add_collateral,
                           asset := loan.collateral_type,
                           amount := amount, value_usd := none }] }

/-- POST /loans/:id/add-collateral (loans.ts lines 288-314): the route rejects
only a falsy amount (zero), calls the engine, then calls addToStakingPool with
the given amount when the collateral is XEC. -/
def addCollateralRoute (px : Asset → ℚ) (now : ℚ) (sys : SysState) (amount : ℚ)
    (userId : Nat) : Except LoanErr SysState :=
  if amount = 0 then Except.error LoanErr.validationFailed
  else
    match addCollateral px now sys amount userId with
    | Except.error e => Except.error e
    | Except.ok sys1 =>
        if sys1.loan.collateral_type = Asset.XEC then
          Except.ok { sys1 with pool := addToStakingPool sys1.pool amount }
        else Except.ok sys1

/-- triggerMarginCall (loanEngine.ts lines 247-260): one margin_calls row with
alert_type critical at LTV 80 or above, and the loan forced to margin_call. -/
def triggerMarginCall (loan : Loan) (now ltv : ℚ) : Loan × List MarginCall :=
  ({ loan with status := LoanStatus.margin_call, updated_at := now },
   [{ ltv_at_alert := ltv, critical := decide (80 ≤ ltv) }])

/-- The body of the updateAllLTVs loop (loanEngine.ts lines 211-241) applied to
one loan: recompute the LTV, transition the status, persist, and trigger a
margin call on an entry transition. -/
def updateLoanLTV (px : Asset → ℚ) (now : ℚ) (loan : Loan) : Loan × List MarginCall :=
  let newLTV := calculateLTV px loan.borrowed_type loan.borrowed_amount
    loan.accrued_interest loan.collateral_type loan.collateral_amount
  let oldStatus := loan.status
  let newStatus :=
    if newLTV ≥ LIQUIDATION_LTV then oldStatus
    else if newLTV ≥ MARGIN_CALL_LTV then LoanStatus.margin_call
    else if oldStatus = LoanStatus.margin_call then LoanStatus.active
    else oldStatus
  let loan1 := { loan with current_ltv := newLTV, status := newStatus, updated_at := now }
  if newStatus = LoanStatus.margin_call ∧ oldStatus ≠ LoanStatus.margin_call then
    triggerMarginCall loan1 now newLTV
  else (loan1, [])

/-- updateAllLTVs (loanEngine.ts lines 208-242): the scheduler pass.  It
iterates getActiveLoans (line 164: SELECT * FROM loans WHERE status =
active), so exactly the loans whose status is active are processed; every
other row is left untouched. -/
def updateAllLTVs (px : Asset → ℚ) (now : ℚ) (loans : List Loan) :
    List Loan × List MarginCall :=
  (loans.map fun l =>
     if l.status = LoanStatus.active then (updateLoanLTV px now l).1 else l,
   (loans.map fun l =>
     if l.status = LoanStatus.active then (updateLoanLTV px now l).2 else []).flatten)

/-- accrueInterest (loanEngine.ts lines 170-203): elapsed hours are computed
from the updated_at column (line 171); below one hour the call is a no-op;
otherwise accrued interest grows by principal times rate times the floored hour
count, the LTV is recomputed and persisted with fresh last_interest_update and
updated_at stamps, and a margin call fires when the new LTV is inside the
margin band. -/
def accrueInterest (px : Asset → ℚ) (now : ℚ) (loan : Loan) : Loan × List MarginCall :=
  let hoursElapsed := getHoursElapsed now loan.updated_at
  if hoursElapsed < 1 then (loan, [])
  else
    let interestAmount := loan.borrowed_amount * loan.interest_rate * (⌊hoursElapsed⌋ : ℚ)
    let newAccruedInterest := loan.accrued_interest + interestAmount
    let newLTV := calculateLTV px loan.borrowed_type loan.borrowed_amount
      newAccruedInterest loan.collateral_type loan.collateral_amount
    let loan1 := { loan with
      accrued_interest := newAccruedInterest,
      current_ltv := newLTV, last_interest_update := now,
      updated_at := now }
    if MARGIN_CALL_LTV ≤ newLTV ∧ newLTV < LIQUIDATION_LTV then
      triggerMarginCall loan1 now newLTV
    else (loan1, [])

/-- liquidateLoan (liquidationEngine.ts lines 67-142): sell enough collateral
to recover debt plus fee (capped at the collateral amount), close the loan with
all monetary fields zeroed, return the residual collateral to the owner, and
append one liquidation transaction carrying the collateral asset, the sold
amount and the recovery target in USD.  Nothing in this function touches the
staking pool. -/
def liquidateLoan (px : Asset → ℚ) (now : ℚ) (sys : SysState) : SysState × ℚ × ℚ :=
  let loan := sys.loan
  let totalDebt := loan.borrowed_amount + loan.accrued_interest
  let debtValueUSD := toUSD px loan.borrowed_type totalDebt
  let liquidationFeeUSD := debtValueUSD * LIQUIDATION_FEE
  let totalToRecoverUSD := debtValueUSD + liquidationFeeUSD
  let collateralPrice := getPrice px loan.collateral_type
  let collateralToSell := min (totalToRecoverUSD / collateralPrice) loan.collateral_amount
  let collateralReturned := max 0 (loan.collateral_amount - collateralToSell)
  let loan1 := { loan with
    status := LoanStatus.liquidated, collateral_amount := 0,
    borrowed_amount := 0, accrued_interest := 0, current_ltv := 0,
    closed_at := some now, updated_at := now }
  let bal1 := if collateralReturned > 0 then
                sys.balances.add loan.collateral_type collateralReturned
              else sys.balances
  ({ sys with
     loan := loan1, balances := bal1,
     txs := sys.txs ++ [{ type := TxnType.liquidation,
                          asset := loan.collateral_type,
                          amount := collateralToSell,
                          value_usd := some totalToRecoverUSD }] },
   collateralToSell, collateralReturned)

/-! Result extractors used to state facts about Except-valued operations
without binders. -/

/-- The post-state of a successful repayLoan call. -/
def repayOutState : Except LoanErr (SysState × ℚ × Bool) → Option SysState
  | Except.ok (s, _, _) => some s
  | Except.error _ => none

/-- The isFullyRepaid flag of a successful repayLoan call. -/
def repayOutFlag : Except LoanErr (SysState × ℚ × Bool) → Option Bool
  | Except.ok (_, _, f) => some f
  | Except.error _ => none

/-- The balances of a successful createLoanRoute call. -/
def createOutBalances : Except LoanErr (Balances × Loan × StakingPool × List Txn) →
    Option Balances
  | Except.ok (b, _, _, _) => some b
  | Except.error _ => none

/-- The post-state of a successful addCollateral route call. -/
def addOutState : Except LoanErr SysState → Option SysState
  | Except.ok s => some s
  | Except.error _ => none

/-! Concrete fixtures, taken from the worked scenarios of the specification:
price of XEC 0.00003 USD, a loan of 15 FIRMA against 1,000,000 XEC. -/

/-- Price feed fixture: XEC and XECX at 0.00003 USD. -/
def px0 : Asset → ℚ := fun a =>
  match a with
  | Asset.FIRMA => 1
  | _ => 3 / 100000

/-- An active loan: 1,000,000 XEC collateral, 15 FIRMA borrowed, LTV 50. -/
def exLoanActive : Loan :=
  { user_id := 1, status := LoanStatus.active,
    collateral_type := Asset.XEC, collateral_amount := 1000000,
    collateral_value_usd := 30,
    borrowed_type := Asset.FIRMA, borrowed_amount := 15, borrowed_value_usd := 15,
    interest_rate := HOURLY_INTEREST_RATE, accrued_interest := 0,
    initial_ltv := 50, current_ltv := 50, staking_yield_earned := 0,
    last_interest_update := 0, updated_at := 0, closed_at := none }

/-- The same loan in status margin_call (stale current_ltv 75). -/
def exLoanMC : Loan :=
  { exLoanActive with status := LoanStatus.margin_call, current_ltv := 75 }

/-- A loan whose last_interest_update is two hours old while updated_at was
stamped six minutes ago (as the minute-cadence updateAllLTVs pass does). -/
def exLoanStale : Loan :=
  { exLoanActive with last_interest_update := 0, updated_at := 6840000 }

/-- Staking pool holding the platform base plus the collateral of
exLoanActive. -/
def exPool : StakingPool :=
  { platform_base_xecx := 50000, user_contributed_xecx := 1000000,
    total_xecx := 1050000 }

/-- Ledger state owning exLoanActive with a balance able to repay the debt. -/
def exSys : SysState :=
  { balances := { xec := 0, firma := 100, xecx := 0 },
    loan := exLoanActive, pool := exPool, txs := [] }

/-- Ledger state owning exLoanActive with all balances zero. -/
def exSysZero : SysState :=
  { balances := { xec := 0, firma := 0, xecx := 0 },
    loan := exLoanActive, pool := exPool, txs := [] }

/-- C1.  The claim says update_all_ltvs processes every loan whose status is in
the set containing active and margin_call, restoring a margin_call loan to
active when its recomputed LTV is below MARGIN_CALL_LTV.  The code is wrong:
getActiveLoans selects only status active, so a margin_call loan is skipped
entirely and never restored, even though its recomputed LTV (50) is far below
the margin-call threshold; the restore branch inside the loop is unreachable. -/
theorem C1_marginCall_loans_skipped :
    (updateAllLTVs px0 60000 [exLoanMC]).1 = [exLoanMC] ∧
    (updateAllLTVs px0 60000 [exLoanMC]).2 = [] ∧
    exLoanMC.status = LoanStatus.margin_call ∧
    calculateLTV px0 exLoanMC.borrowed_type exLoanMC.borrowed_amount
      exLoanMC.accrued_interest exLoanMC.collateral_type exLoanMC.collateral_amount
      < MARGIN_CALL_LTV := by
  refine ⟨rfl, rfl, rfl, by norm_num [calculateLTV, toUSD, getPrice, px0,
    exLoanMC, exLoanActive, MARGIN_CALL_LTV]⟩

/-- C2.  The claim says accrue_interest computes the elapsed hours from the
last_interest_update timestamp.  The code reads updated_at instead (line 171),
so on a loan whose last_interest_update is two full hours old but whose
updated_at was refreshed six minutes earlier the call is a no-op, even though
the floor of the hours since last_interest_update is 2. -/
theorem C2_accrual_uses_updated_at :
    accrueInterest px0 7200000 exLoanStale = (exLoanStale, []) ∧
    ⌊getHoursElapsed 7200000 exLoanStale.last_interest_update⌋ = 2 ∧
    getHoursElapsed 7200000 exLoanStale.updated_at < 1 := by
  refine ⟨?_, ?_, ?_⟩
  · norm_num [accrueInterest, getHoursElapsed, exLoanStale, exLoanActive]
  · norm_num [getHoursElapsed, exLoanStale, exLoanActive]
  · norm_num [getHoursElapsed, exLoanStale, exLoanActive]

/-- Balance row holding a large FIRMA balance and nothing else. -/
def exBalFirmaRich : Balances := { xec := 0, firma := 2000000, xecx := 0 }

/-- C7.  The claim says the staking pool is updated inversely (via the clamped
subtraction) whenever XEC collateral leaves a loan, on full repayment or on
liquidation.  The code is wrong: removeFromStakingPool is never invoked — the
repay path and the liquidation path both leave the pool untouched, although the
clamped subtraction would have changed it. -/
theorem C7_pool_not_updated :
    exSys.loan.collateral_type = Asset.XEC ∧
    repayOutFlag (repayLoan 7200000 exSys 15 1) = some true ∧
    (repayOutState (repayLoan 7200000 exSys 15 1)).map SysState.pool = some exSys.pool ∧
    (liquidateLoan px0 7200000 exSys).1.pool = exSys.pool ∧
    removeFromStakingPool exSys.pool exSys.loan.collateral_amount ≠ exSys.pool := by
  refine ⟨rfl, ?_, ?_, ?_, ?_⟩
  · norm_num [repayLoan, repayOutFlag, exSys, exLoanActive, exPool, Balances.add]
    simp
  · norm_num [repayLoan, repayOutState, exSys, exLoanActive, exPool, Balances.add]
    simp
  · norm_num [liquidateLoan, exSys, exLoanActive, exPool, toUSD, getPrice, px0,
      LIQUIDATION_FEE, Balances.add]
  · norm_num [removeFromStakingPool, exSys, exPool, exLoanActive, StakingPool.mk.injEq]

/-- C4 counterexample.  The claim says a loan in a terminal state has
collateral amount, borrowed amount and accrued interest all 0.  Full repayment
moves the loan to the terminal state repaid but leaves collateral_amount at its
pre-repayment value (the UPDATE in loanEngine.ts lines 299-309 zeroes only
borrowed_amount, accrued_interest and current_ltv), so the stated invariant is
false for repaid loans. -/
theorem C4_counterexample_repaid_collateral :
    (repayOutState (repayLoan 7200000 exSys 15 1)).map (fun s => s.loan.status)
      = some LoanStatus.repaid ∧
    (repayOutState (repayLoan 7200000 exSys 15 1)).map (fun s => s.loan.collateral_amount)
      = some 1000000 ∧
    ((1000000 : ℚ) ≠ 0) ∧
    (repayOutState (repayLoan 7200000 exSys 15 1)).map (fun s => s.loan.closed_at)
      = some (some 7200000) := by
  refine ⟨?_, ?_, by norm_num, ?_⟩ <;>
    norm_num [repayLoan, repayOutState, exSys, exLoanActive, exPool, Balances.add] <;>
    simp

/-- C3 counterexample.  The claim says create_loan fails with
InsufficientBalance whenever the balance in the collateral asset is below the
requested collateral amount.  The route guard (loans.ts lines 105-108) maps
every non-XEC collateral to the balance_firma column, so with XECX collateral
the XECX balance is never inspected: a user holding zero XECX but enough FIRMA
creates the loan and the XECX balance is driven to -1,000,000. -/
theorem C3_counterexample_xecx :
    exBalFirmaRich.get Asset.XECX < 1000000 ∧
    (createOutBalances (createLoanRoute px0 0 1 Asset.XECX 1000000 Asset.FIRMA 15
        exBalFirmaRich exPool [])).isSome = true ∧
    (createOutBalances (createLoanRoute px0 0 1 Asset.XECX 1000000 Asset.FIRMA 15
        exBalFirmaRich exPool [])).map (fun b => b.get Asset.XECX)
      = some (-1000000) := by
  refine ⟨by norm_num [exBalFirmaRich, Balances.get], ?_, ?_⟩ <;>
    norm_num [createLoanRoute, createLoanEngine, createOutBalances, routeBalanceAsset,
      toUSD, getPrice, px0, INITIAL_LTV, exBalFirmaRich, exPool, Balances.get,
      Balances.add, addToStakingPool, HOURLY_INTEREST_RATE] <;>
    simp <;> norm_num

/-- C9 counterexample.  The claim says no core operation can drive a balance
below zero.  addCollateral (loanEngine.ts lines 348-402, route at loans.ts
lines 288-314) debits the collateral balance without any check, so adding 100
XEC of collateral with a zero XEC balance succeeds and leaves the balance at
-100. -/
theorem C9_counterexample_negative_balance :
    exSysZero.balances.get Asset.XEC = 0 ∧
    (addOutState (addCollateralRoute px0 60000 exSysZero 100 1)).map
      (fun s => s.balances.get Asset.XEC) = some (-100) ∧
    ((-100 : ℚ) < 0) := by
  refine ⟨rfl, ?_, by norm_num⟩
  norm_num [addCollateralRoute, addCollateral, addOutState, calculateLTV, toUSD,
    getPrice, px0, MARGIN_CALL_LTV, exSysZero, exLoanActive, exPool, Balances.get,
    Balances.add, addToStakingPool]
  simp

/-! Helper lemmas about balance updates. -/

lemma Balances.add_zero (b : Balances) (a : Asset) : b.add a 0 = b := by
  cases a <;> simp [Balances.add]

lemma Balances.get_add (b : Balances) (a : Asset) (q : ℚ) :
    (b.add a q).get a = b.get a + q := by
  cases a <;> simp [Balances.add, Balances.get]

/-- The guard disjunction of repayLoan and addCollateral is false on a
non-terminal loan. -/
lemma notTerminal_guard (l : Loan) (hliq : l.status ≠ LoanStatus.liquidated)
    (hrep : l.status ≠ LoanStatus.repaid) :
    ¬(l.status = LoanStatus.liquidated ∨ l.status = LoanStatus.repaid) := by
  rintro (h | h)
  · exact hliq h
  · exact hrep h

/-- Full-repayment branch of repayLoan, in closed form. -/
lemma repay_full_eq (now : ℚ) (sys : SysState) (a : ℚ) (uid : Nat)
    (hown : sys.loan.user_id = uid)
    (hliq : sys.loan.status ≠ LoanStatus.liquidated)
    (hrep : sys.loan.status ≠ LoanStatus.repaid)
    (h : sys.loan.borrowed_amount + sys.loan.accrued_interest ≤ a) :
    repayLoan now sys a uid = Except.ok
      ({ sys with
          loan := { sys.loan with
            status := LoanStatus.repaid, borrowed_amount := 0,
            accrued_interest := 0, current_ltv := 0,
            closed_at := some now, updated_at := now },
          balances := (sys.balances.add sys.loan.borrowed_type
              (-min a (sys.loan.borrowed_amount + sys.loan.accrued_interest))).add
            sys.loan.collateral_type sys.loan.collateral_amount,
          txs := sys.txs ++ [{
            type := TxnType.repay, asset := sys.loan.borrowed_type,
            amount := min a (sys.loan.borrowed_amount + sys.loan.accrued_interest),
            value_usd := none }] },
       sys.loan.borrowed_amount + sys.loan.accrued_interest
         - min a (sys.loan.borrowed_amount + sys.loan.accrued_interest), true) := by
  have hmin : min a (sys.loan.borrowed_amount + sys.loan.accrued_interest)
      = sys.loan.borrowed_amount + sys.loan.accrued_interest := min_eq_right h
  simp only [repayLoan, hmin, sub_self]
  rw [if_neg (by simp [hown]), if_neg (notTerminal_guard sys.loan hliq hrep),
    if_pos le_rfl]

/-- Below-debt branch of repayLoan, in closed interest-first form. -/
lemma repay_part_eq (now : ℚ) (sys : SysState) (a : ℚ) (uid : Nat)
    (hown : sys.loan.user_id = uid)
    (hliq : sys.loan.status ≠ LoanStatus.liquidated)
    (hrep : sys.loan.status ≠ LoanStatus.repaid)
    (h : a < sys.loan.borrowed_amount + sys.loan.accrued_interest) :
    repayLoan now sys a uid = Except.ok
      ({ sys with
          loan := { sys.loan with
            borrowed_amount := sys.loan.borrowed_amount
              - max 0 (a - sys.loan.accrued_interest),
            accrued_interest := max 0 (sys.loan.accrued_interest - a),
            updated_at := now },
          balances := sys.balances.add sys.loan.borrowed_type (-a),
          txs := sys.txs ++ [{
            type := TxnType.repay, asset := sys.loan.borrowed_type,
            amount := a, value_usd := none }] },
       sys.loan.borrowed_amount + sys.loan.accrued_interest - a, false) := by
  have hmin : min a (sys.loan.borrowed_amount + sys.loan.accrued_interest) = a :=
    min_eq_left h.le
  simp only [repayLoan, hmin]
  rw [if_neg (by simp [hown]), if_neg (notTerminal_guard sys.loan hliq hrep),
    if_neg (by linarith)]
  by_cases h2 : sys.loan.accrued_interest ≤ a
  · rw [if_pos h2, max_eq_right (sub_nonneg.mpr h2), max_eq_left (sub_nonpos.mpr h2)]
  · rw [if_neg h2, max_eq_left (sub_nonpos.mpr (le_of_not_le h2)),
      max_eq_right (sub_nonneg.mpr (le_of_not_le h2))]
    simp

/-- Scenario fixture: the standard loan after 100 hours of accrued interest
(15 times 0.0001 times 100 = 0.15 FIRMA). -/
def exLoanInterest : Loan := { exLoanActive with accrued_interest := 3 / 20 }

/-- Ledger state owning exLoanInterest. -/
def exSysInterest : SysState := { exSys with loan := exLoanInterest }

/-- C5.  repay_loan on a non-terminal loan owned by the caller debits
actual = min(amount, principal + accrued) from the borrowed-asset balance; if
actual covers the whole debt it credits the entire collateral back and closes
the loan as repaid, otherwise it applies the payment interest-first: accrued
becomes max(0, accrued - actual) and principal is reduced by the surplus
max(0, actual - accrued); the remaining debt returned is
(principal + accrued) - actual and fully_repaid holds exactly when actual is at
least principal + accrued.  Confirmed against the source. -/
theorem C5_repay_semantics (now : ℚ) (sys : SysState) (a : ℚ) (uid : Nat)
    (hown : sys.loan.user_id = uid)
    (hliq : sys.loan.status ≠ LoanStatus.liquidated)
    (hrep : sys.loan.status ≠ LoanStatus.repaid) :
    (sys.loan.borrowed_amount + sys.loan.accrued_interest ≤ a →
      repayLoan now sys a uid = Except.ok
        ({ sys with
            loan := { sys.loan with
              status := LoanStatus.repaid, borrowed_amount := 0,
              accrued_interest := 0, current_ltv := 0,
              closed_at := some now, updated_at := now },
            balances := (sys.balances.add sys.loan.borrowed_type
                (-min a (sys.loan.borrowed_amount + sys.loan.accrued_interest))).add
              sys.loan.collateral_type sys.loan.collateral_amount,
            txs := sys.txs ++ [{
              type := TxnType.repay, asset := sys.loan.borrowed_type,
              amount := min a (sys.loan.borrowed_amount + sys.loan.accrued_interest),
              value_usd := none }] },
         sys.loan.borrowed_amount + sys.loan.accrued_interest
           - min a (sys.loan.borrowed_amount + sys.loan.accrued_interest), true)) ∧
    (a < sys.loan.borrowed_amount + sys.loan.accrued_interest →
      repayLoan now sys a uid = Except.ok
        ({ sys with
            loan := { sys.loan with
              borrowed_amount := sys.loan.borrowed_amount
                - max 0 (a - sys.loan.accrued_interest),
              accrued_interest := max 0 (sys.loan.accrued_interest - a),
              updated_at := now },
            balances := sys.balances.add sys.loan.borrowed_type (-a),
            txs := sys.txs ++ [{
              type := TxnType.repay, asset := sys.loan.borrowed_type,
              amount := a, value_usd := none }] },
         sys.loan.borrowed_amount + sys.loan.accrued_interest - a, false)) ∧
    (repayOutFlag (repayLoan now sys a uid) = some true ↔
      sys.loan.borrowed_amount + sys.loan.accrued_interest
        ≤ min a (sys.loan.borrowed_amount + sys.loan.accrued_interest)) := by
  refine ⟨repay_full_eq now sys a uid hown hliq hrep,
    repay_part_eq now sys a uid hown hliq hrep, ?_⟩
  by_cases h : sys.loan.borrowed_amount + sys.loan.accrued_interest ≤ a
  · rw [repay_full_eq now sys a uid hown hliq hrep h]
    simp [repayOutFlag, min_eq_right h]
  · push_neg at h
    rw [repay_part_eq now sys a uid hown hliq hrep h]
    simp only [repayOutFlag, min_eq_left h.le]
    constructor
    · intro hfalse
      exact absurd hfalse (by simp)
    · intro hle
      exact absurd hle (by linarith)

/-- Witness for C5: spec scenario 3 — repaying 0.10 FIRMA against a debt of
15 principal plus 0.15 accrued interest. -/
theorem C5_repay_witness :
    (exSysInterest.loan.borrowed_amount + exSysInterest.loan.accrued_interest ≤ (1 / 10 : ℚ) →
      repayLoan 7200000 exSysInterest (1 / 10) 1 = Except.ok
        ({ exSysInterest with
            loan := { exSysInterest.loan with
              status := LoanStatus.repaid, borrowed_amount := 0,
              accrued_interest := 0, current_ltv := 0,
              closed_at := some 7200000, updated_at := 7200000 },
            balances := (exSysInterest.balances.add exSysInterest.loan.borrowed_type
                (-min (1 / 10)
                  (exSysInterest.loan.borrowed_amount + exSysInterest.loan.accrued_interest))).add
              exSysInterest.loan.collateral_type exSysInterest.loan.collateral_amount,
            txs := exSysInterest.txs ++ [{
              type := TxnType.repay, asset := exSysInterest.loan.borrowed_type,
              amount := min (1 / 10)
                (exSysInterest.loan.borrowed_amount + exSysInterest.loan.accrued_interest),
              value_usd := none }] },
         exSysInterest.loan.borrowed_amount + exSysInterest.loan.accrued_interest
           - min (1 / 10)
             (exSysInterest.loan.borrowed_amount + exSysInterest.loan.accrued_interest), true)) ∧
    ((1 / 10 : ℚ) < exSysInterest.loan.borrowed_amount + exSysInterest.loan.accrued_interest →
      repayLoan 7200000 exSysInterest (1 / 10) 1 = Except.ok
        ({ exSysInterest with
            loan := { exSysInterest.loan with
              borrowed_amount := exSysInterest.loan.borrowed_amount
                - max 0 (1 / 10 - exSysInterest.loan.accrued_interest),
              accrued_interest := max 0 (exSysInterest.loan.accrued_interest - 1 / 10),
              updated_at := 7200000 },
            balances := exSysInterest.balances.add exSysInterest.loan.borrowed_type (-(1 / 10)),
            txs := exSysInterest.txs ++ [{
              type := TxnType.repay, asset := exSysInterest.loan.borrowed_type,
              amount := 1 / 10, value_usd := none }] },
         exSysInterest.loan.borrowed_amount + exSysInterest.loan.accrued_interest - 1 / 10,
         false)) ∧
    (repayOutFlag (repayLoan 7200000 exSysInterest (1 / 10) 1) = some true ↔
      exSysInterest.loan.borrowed_amount + exSysInterest.loan.accrued_interest
        ≤ min (1 / 10)
          (exSysInterest.loan.borrowed_amount + exSysInterest.loan.accrued_interest)) :=
  C5_repay_semantics 7200000 exSysInterest (1 / 10) 1 rfl (by decide) (by decide)

/-- C4 (amended).  Closing operations establish: borrowed amount and accrued
interest are zeroed and closed_at is stamped in both terminal transitions;
liquidation additionally zeroes collateral_amount, but full repayment leaves
collateral_amount at its pre-repayment value (the collateral is credited back
to the user while the loan row keeps the historical amount). -/
theorem C4_terminal_fields (px : Asset → ℚ) (now : ℚ) (sys : SysState) (a : ℚ)
    (uid : Nat)
    (hown : sys.loan.user_id = uid)
    (hliq : sys.loan.status ≠ LoanStatus.liquidated)
    (hrep : sys.loan.status ≠ LoanStatus.repaid)
    (hfull : sys.loan.borrowed_amount + sys.loan.accrued_interest ≤ a) :
    (repayOutState (repayLoan now sys a uid)).map (fun s => s.loan.status)
      = some LoanStatus.repaid ∧
    (repayOutState (repayLoan now sys a uid)).map (fun s => s.loan.borrowed_amount)
      = some 0 ∧
    (repayOutState (repayLoan now sys a uid)).map (fun s => s.loan.accrued_interest)
      = some 0 ∧
    (repayOutState (repayLoan now sys a uid)).map (fun s => s.loan.closed_at)
      = some (some now) ∧
    (repayOutState (repayLoan now sys a uid)).map (fun s => s.loan.collateral_amount)
      = some sys.loan.collateral_amount ∧
    (liquidateLoan px now sys).1.loan.status = LoanStatus.liquidated ∧
    (liquidateLoan px now sys).1.loan.collateral_amount = 0 ∧
    (liquidateLoan px now sys).1.loan.borrowed_amount = 0 ∧
    (liquidateLoan px now sys).1.loan.accrued_interest = 0 ∧
    (liquidateLoan px now sys).1.loan.closed_at = some now := by
  rw [repay_full_eq now sys a uid hown hliq hrep hfull]
  refine ⟨rfl, rfl, rfl, rfl, rfl, ?_, ?_, ?_, ?_, ?_⟩ <;> simp [liquidateLoan]

/-- Witness for C4: full repayment and liquidation of the standard loan. -/
theorem C4_terminal_fields_witness :
    (repayOutState (repayLoan 7200000 exSys 15 1)).map (fun s => s.loan.status)
      = some LoanStatus.repaid ∧
    (repayOutState (repayLoan 7200000 exSys 15 1)).map (fun s => s.loan.borrowed_amount)
      = some 0 ∧
    (repayOutState (repayLoan 7200000 exSys 15 1)).map (fun s => s.loan.accrued_interest)
      = some 0 ∧
    (repayOutState (repayLoan 7200000 exSys 15 1)).map (fun s => s.loan.closed_at)
      = some (some 7200000) ∧
    (repayOutState (repayLoan 7200000 exSys 15 1)).map (fun s => s.loan.collateral_amount)
      = some exSys.loan.collateral_amount ∧
    (liquidateLoan px0 7200000 exSys).1.loan.status = LoanStatus.liquidated ∧
    (liquidateLoan px0 7200000 exSys).1.loan.collateral_amount = 0 ∧
    (liquidateLoan px0 7200000 exSys).1.loan.borrowed_amount = 0 ∧
    (liquidateLoan px0 7200000 exSys).1.loan.accrued_interest = 0 ∧
    (liquidateLoan px0 7200000 exSys).1.loan.closed_at = some 7200000 :=
  C4_terminal_fields px0 7200000 exSys 15 1 rfl (by decide) (by decide)
    (by norm_num [exSys, exLoanActive])

/-- Scenario 5 price feed: XEC has fallen to 0.000018 USD. -/
def px5 : Asset → ℚ := fun a =>
  match a with
  | Asset.FIRMA => 1
  | _ => 18 / 1000000

/-- C6.  Liquidation sells
min((principal + accrued) times price(borrow) times (1 + LIQUIDATION_FEE)
divided by price(collateral), collateral_amount), credits
max(0, collateral_amount - sold) back to the owner, closes the loan as
liquidated with zeroed monetary fields and a stamped closed_at, and appends
exactly one liquidation transaction whose asset is the collateral type, whose
amount is the sold quantity (never above the collateral amount) and whose
value_usd is the debt-plus-fee recovery target.  Confirmed against the
source. -/
theorem C6_liquidation_semantics (px : Asset → ℚ) (now : ℚ) (sys : SysState)
    (_hp : 0 < getPrice px sys.loan.collateral_type) :
    (liquidateLoan px now sys).1.loan = { sys.loan with
      status := LoanStatus.liquidated, collateral_amount := 0, borrowed_amount := 0,
      accrued_interest := 0, current_ltv := 0, closed_at := some now,
      updated_at := now } ∧
    (liquidateLoan px now sys).1.balances = sys.balances.add sys.loan.collateral_type
      (max 0 (sys.loan.collateral_amount - min
        (toUSD px sys.loan.borrowed_type
            (sys.loan.borrowed_amount + sys.loan.accrued_interest)
          * (1 + LIQUIDATION_FEE) / getPrice px sys.loan.collateral_type)
        sys.loan.collateral_amount)) ∧
    (liquidateLoan px now sys).1.txs = sys.txs ++ [{
      type := TxnType.liquidation, asset := sys.loan.collateral_type,
      amount := min
        (toUSD px sys.loan.borrowed_type
            (sys.loan.borrowed_amount + sys.loan.accrued_interest)
          * (1 + LIQUIDATION_FEE) / getPrice px sys.loan.collateral_type)
        sys.loan.collateral_amount,
      value_usd := some (toUSD px sys.loan.borrowed_type
          (sys.loan.borrowed_amount + sys.loan.accrued_interest)
        * (1 + LIQUIDATION_FEE)) }] ∧
    (liquidateLoan px now sys).2.1 ≤ sys.loan.collateral_amount := by
  have hrw : toUSD px sys.loan.borrowed_type
        (sys.loan.borrowed_amount + sys.loan.accrued_interest)
      + toUSD px sys.loan.borrowed_type
          (sys.loan.borrowed_amount + sys.loan.accrued_interest) * LIQUIDATION_FEE
      = toUSD px sys.loan.borrowed_type
          (sys.loan.borrowed_amount + sys.loan.accrued_interest)
        * (1 + LIQUIDATION_FEE) := by ring
  refine ⟨rfl, ?_, ?_, ?_⟩
  · simp only [liquidateLoan, hrw]
    by_cases hr : max 0 (sys.loan.collateral_amount - min
        (toUSD px sys.loan.borrowed_type
            (sys.loan.borrowed_amount + sys.loan.accrued_interest)
          * (1 + LIQUIDATION_FEE) / getPrice px sys.loan.collateral_type)
        sys.loan.collateral_amount) > 0
    · rw [if_pos hr]
    · rw [if_neg hr, le_antisymm (not_lt.mp hr) (le_max_left _ _), Balances.add_zero]
  · simp only [liquidateLoan, hrw]
  · simp only [liquidateLoan]
    exact min_le_right _ _

/-- Witness for C6: spec scenario 5 — the standard loan liquidated at an XEC
price of 0.000018 USD (850,000 XEC sold, 150,000 XEC returned). -/
theorem C6_liquidation_witness :
    (liquidateLoan px5 7200000 exSys).1.loan = { exSys.loan with
      status := LoanStatus.liquidated, collateral_amount := 0, borrowed_amount := 0,
      accrued_interest := 0, current_ltv := 0, closed_at := some 7200000,
      updated_at := 7200000 } ∧
    (liquidateLoan px5 7200000 exSys).1.balances = exSys.balances.add
      exSys.loan.collateral_type
      (max 0 (exSys.loan.collateral_amount - min
        (toUSD px5 exSys.loan.borrowed_type
            (exSys.loan.borrowed_amount + exSys.loan.accrued_interest)
          * (1 + LIQUIDATION_FEE) / getPrice px5 exSys.loan.collateral_type)
        exSys.loan.collateral_amount)) ∧
    (liquidateLoan px5 7200000 exSys).1.txs = exSys.txs ++ [{
      type := TxnType.liquidation, asset := exSys.loan.collateral_type,
      amount := min
        (toUSD px5 exSys.loan.borrowed_type
            (exSys.loan.borrowed_amount + exSys.loan.accrued_interest)
          * (1 + LIQUIDATION_FEE) / getPrice px5 exSys.loan.collateral_type)
        exSys.loan.collateral_amount,
      value_usd := some (toUSD px5 exSys.loan.borrowed_type
          (exSys.loan.borrowed_amount + exSys.loan.accrued_interest)
        * (1 + LIQUIDATION_FEE)) }] ∧
    (liquidateLoan px5 7200000 exSys).2.1 ≤ exSys.loan.collateral_amount :=
  C6_liquidation_semantics px5 7200000 exSys
    (by norm_num [getPrice, px5, exSys, exLoanActive])

/-- C8.  create_loan rejects with LTVExceeded exactly when the implied LTV,
(borrow value USD / collateral value USD) times 100, is strictly above
INITIAL_LTV; at an implied LTV equal to INITIAL_LTV the creation succeeds,
producing an active loan at that LTV with the collateral debited and the
borrowed amount credited.  Confirmed against the source (for positive
collateral value, where the rational division matches the source
arithmetic). -/
theorem C8_ltv_guard (px : Asset → ℚ) (now : ℚ) (uid : Nat) (cT : Asset) (cA : ℚ)
    (bT : Asset) (bA : ℚ) (bal : Balances) (txs : List Txn)
    (_hc : 0 < toUSD px cT cA) :
    (createLoanEngine px now uid cT cA bT bA bal txs
        = Except.error LoanErr.ltvExceeded
      ↔ INITIAL_LTV < toUSD px bT bA / toUSD px cT cA * 100) ∧
    (toUSD px bT bA / toUSD px cT cA * 100 ≤ INITIAL_LTV →
      createLoanEngine px now uid cT cA bT bA bal txs = Except.ok
        ((bal.add cT (-cA)).add bT bA,
         { user_id := uid, status := LoanStatus.active, collateral_type := cT,
           collateral_amount := cA, collateral_value_usd := toUSD px cT cA,
           borrowed_type := bT, borrowed_amount := bA,
           borrowed_value_usd := toUSD px bT bA,
           interest_rate := HOURLY_INTEREST_RATE, accrued_interest := 0,
           initial_ltv := toUSD px bT bA / toUSD px cT cA * 100,
           current_ltv := toUSD px bT bA / toUSD px cT cA * 100,
           staking_yield_earned := 0, last_interest_update := now,
           updated_at := now, closed_at := none },
         txs ++ [{ type := TxnType.borrow, asset := bT, amount := bA,
                   value_usd := some (toUSD px bT bA) }])) := by
  constructor
  · by_cases h : INITIAL_LTV < toUSD px bT bA / toUSD px cT cA * 100
    · simp only [createLoanEngine]
      rw [if_pos h]
      simp [h]
    · simp only [createLoanEngine]
      rw [if_neg h]
      simp [h]
  · intro h
    simp only [createLoanEngine]
    rw [if_neg (not_lt.mpr h)]

/-- Witness for C8: spec scenario 2 — borrowing 19.5 FIRMA against 1,000,000
XEC at price 0.00003 gives an implied LTV of exactly 65 and succeeds. -/
theorem C8_ltv_guard_witness :
    (createLoanEngine px0 0 1 Asset.XEC 1000000 Asset.FIRMA (39 / 2)
        exBalFirmaRich []
        = Except.error LoanErr.ltvExceeded
      ↔ INITIAL_LTV < toUSD px0 Asset.FIRMA (39 / 2) / toUSD px0 Asset.XEC 1000000 * 100) ∧
    (toUSD px0 Asset.FIRMA (39 / 2) / toUSD px0 Asset.XEC 1000000 * 100 ≤ INITIAL_LTV →
      createLoanEngine px0 0 1 Asset.XEC 1000000 Asset.FIRMA (39 / 2)
          exBalFirmaRich [] = Except.ok
        ((exBalFirmaRich.add Asset.XEC (-1000000)).add Asset.FIRMA (39 / 2),
         { user_id := 1, status := LoanStatus.active, collateral_type := Asset.XEC,
           collateral_amount := 1000000,
           collateral_value_usd := toUSD px0 Asset.XEC 1000000,
           borrowed_type := Asset.FIRMA, borrowed_amount := 39 / 2,
           borrowed_value_usd := toUSD px0 Asset.FIRMA (39 / 2),
           interest_rate := HOURLY_INTEREST_RATE, accrued_interest := 0,
           initial_ltv := toUSD px0 Asset.FIRMA (39 / 2) / toUSD px0 Asset.XEC 1000000 * 100,
           current_ltv := toUSD px0 Asset.FIRMA (39 / 2) / toUSD px0 Asset.XEC 1000000 * 100,
           staking_yield_earned := 0, last_interest_update := 0,
           updated_at := 0, closed_at := none },
         [] ++ [{ type := TxnType.borrow, asset := Asset.FIRMA, amount := 39 / 2,
                  value_usd := some (toUSD px0 Asset.FIRMA (39 / 2)) }])) :=
  C8_ltv_guard px0 0 1 Asset.XEC 1000000 Asset.FIRMA (39 / 2) exBalFirmaRich []
    (by norm_num [toUSD, getPrice, px0])

/-- All three balance columns are non-negative. -/
def balancesNonneg (b : Balances) : Prop := 0 ≤ b.xec ∧ 0 ≤ b.firma ∧ 0 ≤ b.xecx

/-- The balances of a createLoanRoute outcome are non-negative (vacuous on
error outcomes, where no state is produced). -/
def createOkNonneg : Except LoanErr (Balances × Loan × StakingPool × List Txn) → Prop
  | Except.ok (b, _, _, _) => balancesNonneg b
  | Except.error _ => True

/-- C9 (amended).  Balance non-negativity is not an invariant of the core
operations: add_collateral and repay_loan debit balances without any check and
can drive them negative.  The only balance guard is the one in the create-loan
route, and it does preserve non-negativity: starting from non-negative
balances, a successful creation with non-negative amounts whose collateral is
XEC or FIRMA (the supported collateral set, for which the guard inspects the
right column) leaves every balance non-negative. -/
theorem C9_create_preserves_nonneg (px : Asset → ℚ) (now : ℚ) (uid : Nat)
    (cT : Asset) (cA : ℚ) (bT : Asset) (bA : ℚ) (bal : Balances)
    (pool : StakingPool) (txs : List Txn)
    (hb : balancesNonneg bal) (_hca : 0 ≤ cA) (hba : 0 ≤ bA)
    (hx : cT ≠ Asset.XECX) :
    createOkNonneg (createLoanRoute px now uid cT cA bT bA bal pool txs) := by
  obtain ⟨h1, h2, h3⟩ := hb
  simp only [createLoanRoute, createLoanEngine]
  split
  · simp [createOkNonneg]
  · next hbal =>
    have hged : cA ≤ bal.get cT := by
      cases cT
      · exact not_lt.mp (by simpa [routeBalanceAsset] using hbal)
      · exact not_lt.mp (by simpa [routeBalanceAsset] using hbal)
      · exact absurd rfl hx
    by_cases hltv : toUSD px bT bA / toUSD px cT cA * 100 > INITIAL_LTV
    · rw [if_pos hltv]
      simp [createOkNonneg]
    · rw [if_neg hltv]
      simp only [createOkNonneg, balancesNonneg]
      cases cT <;> cases bT <;>
        first
          | exact absurd rfl hx
          | (simp only [Balances.add, Balances.get] at hged ⊢;
             exact ⟨by linarith, by linarith, by linarith⟩)

/-- Witness for C9: creating the standard loan from a balance of exactly the
collateral amount keeps every balance at or above zero. -/
theorem C9_create_nonneg_witness :
    createOkNonneg (createLoanRoute px0 0 1 Asset.XEC 1000000 Asset.FIRMA 15
      { xec := 1000000, firma := 0, xecx := 0 } exPool []) :=
  C9_create_preserves_nonneg px0 0 1 Asset.XEC 1000000 Asset.FIRMA 15
    { xec := 1000000, firma := 0, xecx := 0 } exPool []
    (by norm_num [balancesNonneg]) (by norm_num) (by norm_num) (by decide)

/-- C10 (implicit behaviour).  add_collateral places no lower bound on the
amount: on a non-terminal loan owned by the caller, a strictly negative amount
passes the route guard (which rejects only a falsy amount) and the engine,
increasing the collateral-asset balance by the magnitude of the amount,
shrinking the loan collateral by the same magnitude, storing the recomputed
(strictly higher) LTV, and never rejecting on any LTV threshold — so
collateral can be withdrawn from an open loan. -/
theorem C10_negative_add_collateral (px : Asset → ℚ) (now : ℚ) (sys : SysState)
    (amount : ℚ) (uid : Nat)
    (hown : sys.loan.user_id = uid)
    (hliq : sys.loan.status ≠ LoanStatus.liquidated)
    (hrep : sys.loan.status ≠ LoanStatus.repaid)
    (hneg : amount < 0)
    (hcol : 0 < sys.loan.collateral_amount + amount)
    (hpx : 0 < getPrice px sys.loan.collateral_type)
    (hbv : 0 < toUSD px sys.loan.borrowed_type
      (sys.loan.borrowed_amount + sys.loan.accrued_interest)) :
    addCollateralRoute px now sys amount uid = Except.ok { sys with
      loan := { sys.loan with
        collateral_amount := sys.loan.collateral_amount + amount,
        collateral_value_usd := toUSD px sys.loan.collateral_type
          (sys.loan.collateral_amount + amount),
        current_ltv := calculateLTV px sys.loan.borrowed_type
          sys.loan.borrowed_amount sys.loan.accrued_interest
          sys.loan.collateral_type (sys.loan.collateral_amount + amount),
        status := if calculateLTV px sys.loan.borrowed_type
            sys.loan.borrowed_amount sys.loan.accrued_interest
            sys.loan.collateral_type (sys.loan.collateral_amount + amount)
            < MARGIN_CALL_LTV then LoanStatus.active else sys.loan.status,
        updated_at := now },
      balances := sys.balances.add sys.loan.collateral_type (-amount),
      pool := if sys.loan.collateral_type = Asset.XEC
        then addToStakingPool sys.pool amount else sys.pool,
      txs := sys.txs ++ [{
        type := TxnType.add_collateral,
        asset := sys.loan.collateral_type, amount := amount,
        value_usd := none }] } ∧
    (sys.balances.add sys.loan.collateral_type (-amount)).get
        sys.loan.collateral_type
      = sys.balances.get sys.loan.collateral_type - amount ∧
    calculateLTV px sys.loan.borrowed_type sys.loan.borrowed_amount
      sys.loan.accrued_interest sys.loan.collateral_type
      sys.loan.collateral_amount
      < calculateLTV px sys.loan.borrowed_type sys.loan.borrowed_amount
        sys.loan.accrued_interest sys.loan.collateral_type
        (sys.loan.collateral_amount + amount) := by
  have hc : 0 < sys.loan.collateral_amount := by linarith
  have hcv : 0 < toUSD px sys.loan.collateral_type sys.loan.collateral_amount :=
    mul_pos hc hpx
  have hcv1 : 0 < toUSD px sys.loan.collateral_type
      (sys.loan.collateral_amount + amount) := mul_pos hcol hpx
  have hlt : toUSD px sys.loan.collateral_type (sys.loan.collateral_amount + amount)
      < toUSD px sys.loan.collateral_type sys.loan.collateral_amount :=
    mul_lt_mul_of_pos_right (by linarith) hpx
  refine ⟨?_, ?_, ?_⟩
  · simp only [addCollateralRoute, addCollateral]
    rw [if_neg (ne_of_lt hneg), if_neg (by simp [hown]),
      if_neg (notTerminal_guard sys.loan hliq hrep)]
    by_cases hX : sys.loan.collateral_type = Asset.XEC
    · simp only [hX, if_pos]
    · simp only [hX, if_neg, if_false]
  · rw [Balances.get_add]
    ring
  · simp only [calculateLTV]
    rw [if_neg (ne_of_gt hcv), if_neg (ne_of_gt hcv1)]
    exact mul_lt_mul_of_pos_right
      (div_lt_div_of_pos_left hbv hcv1 hlt) (by norm_num)

/-- Witness for C10: withdrawing 900,000 of the 1,000,000 XEC collateral from
the standard loan; the stored LTV climbs from 50 to 500, far beyond
LIQUIDATION_LTV, and the call still succeeds. -/
theorem C10_negative_add_witness :
    addCollateralRoute px0 60000 exSys (-900000) 1 = Except.ok { exSys with
      loan := { exSys.loan with
        collateral_amount := exSys.loan.collateral_amount + -900000,
        collateral_value_usd := toUSD px0 exSys.loan.collateral_type
          (exSys.loan.collateral_amount + -900000),
        current_ltv := calculateLTV px0 exSys.loan.borrowed_type
          exSys.loan.borrowed_amount exSys.loan.accrued_interest
          exSys.loan.collateral_type (exSys.loan.collateral_amount + -900000),
        status := if calculateLTV px0 exSys.loan.borrowed_type
            exSys.loan.borrowed_amount exSys.loan.accrued_interest
            exSys.loan.collateral_type (exSys.loan.collateral_amount + -900000)
            < MARGIN_CALL_LTV then LoanStatus.active else exSys.loan.status,
        updated_at := 60000 },
      balances := exSys.balances.add exSys.loan.collateral_type (-(-900000)),
      pool := if exSys.loan.collateral_type = Asset.XEC
        then addToStakingPool exSys.pool (-900000) else exSys.pool,
      txs := exSys.txs ++ [{
        type := TxnType.add_collateral,
        asset := exSys.loan.collateral_type, amount := -900000,
        value_usd := none }] } ∧
    (exSys.balances.add exSys.loan.collateral_type (-(-900000))).get
        exSys.loan.collateral_type
      = exSys.balances.get exSys.loan.collateral_type - -900000 ∧
    calculateLTV px0 exSys.loan.borrowed_type exSys.loan.borrowed_amount
      exSys.loan.accrued_interest exSys.loan.collateral_type
      exSys.loan.collateral_amount
      < calculateLTV px0 exSys.loan.borrowed_type exSys.loan.borrowed_amount
        exSys.loan.accrued_interest exSys.loan.collateral_type
        (exSys.loan.collateral_amount + -900000) :=
  C10_negative_add_collateral px0 60000 exSys (-900000) 1 rfl (by decide)
    (by decide) (by norm_num)
    (by norm_num [exSys, exLoanActive])
    (by norm_num [getPrice, px0, exSys, exLoanActive])
    (by norm_num [toUSD, getPrice, px0, exSys, exLoanActive])

/-- C3 (amended).  For the supported collateral assets XEC and FIRMA (any
collateral other than XECX), loan creation fails with InsufficientBalance
exactly when the user balance in the collateral asset is strictly below the
requested collateral amount; the failure happens in the route guard before any
state change, so no loan is created and no balance moves (the error outcome
carries no successor state).  With XECX collateral the guard inspects the FIRMA
balance instead, which is the counterexample to the claim as stated. -/
theorem C3_insufficient_balance_guard (px : Asset → ℚ) (now : ℚ) (uid : Nat)
    (cT : Asset) (cA : ℚ) (bT : Asset) (bA : ℚ) (bal : Balances)
    (pool : StakingPool) (txs : List Txn) (hx : cT ≠ Asset.XECX) :
    (createLoanRoute px now uid cT cA bT bA bal pool txs
        = Except.error LoanErr.insufficientBalance)
      ↔ bal.get cT < cA := by
  have hroute : routeBalanceAsset cT = cT := by
    cases cT
    · rfl
    · rfl
    · exact absurd rfl hx
  simp only [createLoanRoute, hroute]
  by_cases h : bal.get cT < cA
  · rw [if_pos h]
    simp [h]
  · rw [if_neg h]
    simp only [createLoanEngine]
    by_cases hltv : toUSD px bT bA / toUSD px cT cA * 100 > INITIAL_LTV
    · rw [if_pos hltv]
      simp [h]
    · rw [if_neg hltv]
      simp [h]

/-- Witness for C3: a user with 5 XEC asking to post 10 XEC of collateral is
rejected with InsufficientBalance. -/
theorem C3_guard_witness :
    (createLoanRoute px0 0 1 Asset.XEC 10 Asset.FIRMA 1
        { xec := 5, firma := 0, xecx := 0 } exPool []
        = Except.error LoanErr.insufficientBalance)
      ↔ ({ xec := 5, firma := 0, xecx := 0 } : Balances).get Asset.XEC < 10 :=
  C3_insufficient_balance_guard px0 0 1 Asset.XEC 10 Asset.FIRMA 1
    { xec := 5, firma := 0, xecx := 0 } exPool [] (by decide)
